import Mathlib

/-!
Shallow embedding of `providers/asrockrack/inventory.go` (bmclib):
the `Inventory` method and its helpers `fruAttributes`, `systemAttributes`
and `systemHealth`, together with the parts of the `common` data model
they populate.  The external collaborator reads (`fruInfo`,
`firmwareInfo`, `inventoryInfo`, `sensors`, `PostCode`) are modelled as
pre-supplied results passed in as arguments; the vendor lookup
`constants.VendorFromProductName` is an abstract function parameter.
`Device.Metadata` (a Go `map[string]string`) is modelled as the ordered
list of key/value writes the code performs; the keys written are pairwise
distinct (proved below), so this coincides with map semantics.
-/

namespace ASRockRack

/-- A sensor reading: name and integer state code
(`sensor.Name`, `sensor.SensorState`). -/
structure Sensor where
  name : String
  sensorState : Int
deriving Repr, DecidableEq, Inhabited

/-- `common.Status`: health block of the device. -/
structure Status where
  health : String := ""
  state : String := ""
  postCodeStatus : String := ""
  postCode : Int := 0
deriving Repr, DecidableEq, Inhabited

/-- FRU board sub-record (`fru.Board`). -/
structure FRUBoard where
  productName : String := ""
  manufacturer : String := ""
  serialNumber : String := ""
deriving Repr, DecidableEq, Inhabited

/-- FRU chassis sub-record (`fru.Chassis`). -/
structure FRUChassis where
  chassisType : String := ""
  modelExtra : String := ""
  serialNumber : String := ""
  partNumber : String := ""
deriving Repr, DecidableEq, Inhabited

/-- FRU product sub-record (`fru.Product`). -/
structure FRUProduct where
  manufacturer : String := ""
  productName : String := ""
  partNumber : String := ""
  productVersion : String := ""
  serialNumber : String := ""
deriving Repr, DecidableEq, Inhabited

/-- One FRU record as returned by `a.fruInfo`. -/
structure FRU where
  board : FRUBoard := {}
  chassis : FRUChassis := {}
  product : FRUProduct := {}
deriving Repr, DecidableEq, Inhabited

/-- Firmware-version record as returned by `a.firmwareInfo`. -/
structure FirmwareInfo where
  biosVersion : String := ""
  bmcVersion : String := ""
  cpldVersion : String := ""
  microCodeVersion : String := ""
  meVersion : String := ""
  nodeID : String := ""
deriving Repr, DecidableEq, Inhabited

/-- One hardware-component record as returned by `a.inventoryInfo`. -/
structure Component where
  deviceType : String := ""
  deviceName : String := ""
  productManufacturerName : String := ""
  productName : String := ""
  productSerialNumber : String := ""
  productPartNumber : String := ""
  productExtra : String := ""
deriving Repr, DecidableEq, Inhabited

/-- `common.Firmware`: installed version plus vendor-specific metadata. -/
structure Firmware where
  installed : String := ""
  metadata : List (String × String) := []
deriving Repr, DecidableEq, Inhabited

/-- `common.Common`: the attribute bundle embedded by every sub-entity. -/
structure Common where
  vendor : String := ""
  model : String := ""
  serial : String := ""
  description : String := ""
  productName : String := ""
  firmware : Option Firmware := none
deriving Repr, DecidableEq, Inhabited

/-- `common.Enclosure`. -/
structure Enclosure where
  common : Common := {}
deriving Repr, DecidableEq, Inhabited

/-- `common.BIOS`. -/
structure BIOS where
  common : Common := {}
deriving Repr, DecidableEq, Inhabited

/-- `common.BMC`. -/
structure BMC where
  common : Common := {}
deriving Repr, DecidableEq, Inhabited

/-- `common.CPLD`. -/
structure CPLD where
  common : Common := {}
deriving Repr, DecidableEq, Inhabited

/-- `common.CPU`. -/
structure CPU where
  common : Common := {}
deriving Repr, DecidableEq, Inhabited

/-- `common.Memory`: common bundle plus part number and type. -/
structure Memory where
  common : Common := {}
  partNumber : String := ""
  memoryType : String := ""
deriving Repr, DecidableEq, Inhabited

/-- `common.Drive`. -/
structure Drive where
  common : Common := {}
deriving Repr, DecidableEq, Inhabited

/-- `common.Mainboard` (only the fields `fruAttributes` writes). -/
structure Mainboard where
  model : String := ""
  vendor : String := ""
  serial : String := ""
deriving Repr, DecidableEq, Inhabited

/-- `common.Device`: the aggregate root, as initialized by
`common.NewDevice()` plus the `Status`/`Metadata` initialization done at
the top of `Inventory`. `metadata` is the ordered log of map writes. -/
structure Device where
  model : String := ""
  vendor : String := ""
  serial : String := ""
  mainboard : Mainboard := {}
  enclosures : List Enclosure := []
  bios : Option BIOS := none
  bmc : Option BMC := none
  cplds : List CPLD := []
  cpus : List CPU := []
  memory : List Memory := []
  drives : List Drive := []
  metadata : List (String × String) := []
  status : Status := {}
deriving Repr, DecidableEq, Inhabited

/-- Errors `Inventory` can return: a propagated upstream read failure, or
the dedicated data-integrity error `errors.New("no fru information found")`
from `fruAttributes`. -/
inductive InvError (ε : Type) where
  | readFailure (e : ε)
  | noFruInformation
deriving Repr, DecidableEq

/-- Body of `fruAttributes` once the FRU read succeeded: the length-1
check, then population of system identity, mainboard, chassis enclosure
and the five product metadata keys. -/
def fruAttributesBody {ε : Type} (frus : List FRU) (device : Device) :
    Except (InvError ε) Device :=
  if frus.length ≠ 1 then
    Except.error InvError.noFruInformation
  else
    let fru := frus.headI
    Except.ok { device with
      model := fru.board.productName
      vendor := fru.board.manufacturer
      serial := fru.board.serialNumber
      mainboard := { device.mainboard with
        model := fru.board.productName
        vendor := fru.board.manufacturer
        serial := fru.board.serialNumber }
      enclosures := device.enclosures ++ [{ common := {
        description := fru.chassis.chassisType
        model := fru.chassis.modelExtra
        serial := fru.chassis.serialNumber
        productName := fru.chassis.partNumber } }]
      metadata := device.metadata ++
        [("product.manufacturer", fru.product.manufacturer),
         ("product.name", fru.product.productName),
         ("product.part_number", fru.product.partNumber),
         ("product.version", fru.product.productVersion),
         ("product.serialnumber", fru.product.serialNumber)] }

/-- `fruAttributes`: propagate a failed FRU read, otherwise run the body. -/
def fruAttributes {ε : Type} (fruRes : Except ε (List FRU))
    (device : Device) : Except (InvError ε) Device :=
  match fruRes with
  | Except.error e => Except.error (InvError.readFailure e)
  | Except.ok frus => fruAttributesBody frus device

/-- One iteration of the component loop in `systemAttributes`: the
`switch component.DeviceType` dispatch.  `vendorFromProductName` models
`constants.VendorFromProductName`. -/
def processComponent (vendorFromProductName : String → String)
    (fwInfo : FirmwareInfo) (device : Device) (component : Component) :
    Device :=
  if component.deviceType = "CPU" then
    { device with cpus := device.cpus ++ [{ common := {
        vendor := component.productManufacturerName
        model := component.productName
        firmware := some {
          installed := fwInfo.microCodeVersion
          metadata := [("Intel_ME_version", fwInfo.meVersion)] } } }] }
  else if component.deviceType = "Memory" then
    { device with memory := device.memory ++ [{
        common := {
          vendor := component.productManufacturerName
          serial := component.productSerialNumber
          description := component.productExtra }
        partNumber := component.productPartNumber
        memoryType := component.deviceName }] }
  else if component.deviceType = "Storage device" then
    let vendor :=
      if component.productManufacturerName = "N/A" ∧
          component.productPartNumber ≠ "N/A" then
        vendorFromProductName component.productPartNumber
      else ""
    { device with drives := device.drives ++ [{ common := {
        vendor := vendor
        serial := component.productSerialNumber
        productName := component.productPartNumber } }] }
  else
    device

/-- Body of `systemAttributes` once the firmware-info read succeeded:
BIOS/BMC always, CPLD only when its version is not `"N/A"`, the
`node_id` metadata write, then the component loop. -/
def systemAttributesBody (vendorFromProductName : String → String)
    (fwInfo : FirmwareInfo) (components : List Component)
    (device : Device) : Device :=
  let device := { device with
    bios := some { common := {
      vendor := device.vendor
      model := device.model
      firmware := some { installed := fwInfo.biosVersion } } }
    bmc := some { common := {
      vendor := device.vendor
      model := device.model
      firmware := some { installed := fwInfo.bmcVersion } } } }
  let device :=
    if fwInfo.cpldVersion ≠ "N/A" then
      { device with cplds := device.cplds ++ [{ common := {
          vendor := device.vendor
          model := device.model
          firmware := some { installed := fwInfo.cpldVersion } } }] }
    else device
  let device := { device with
    metadata := device.metadata ++ [("node_id", fwInfo.nodeID)] }
  components.foldl (processComponent vendorFromProductName fwInfo) device

/-- `systemAttributes`: propagate a failed firmware-info or component
read, otherwise run the body. -/
def systemAttributes {ε : Type} (vendorFromProductName : String → String)
    (fwRes : Except ε FirmwareInfo) (compRes : Except ε (List Component))
    (device : Device) : Except (InvError ε) Device :=
  match fwRes with
  | Except.error e => Except.error (InvError.readFailure e)
  | Except.ok fwInfo =>
    match compRes with
    | Except.error e => Except.error (InvError.readFailure e)
    | Except.ok components =>
      Except.ok (systemAttributesBody vendorFromProductName fwInfo
        components device)

/-- Whether a sensor reading trips the fault branch of the `switch` in
`systemHealth`: the three fault-indicator sensors are nominal at state
code 0, every other sensor is nominal at state code 1. -/
def sensorFaults (sensor : Sensor) : Bool :=
  if sensor.name = "CPU_CATERR" ∨ sensor.name = "CPU_THERMTRIP" ∨
      sensor.name = "CPU_PROCHOT" then
    sensor.sensorState ≠ 0
  else
    sensor.sensorState ≠ 1

/-- One iteration of the sensor loop in `systemHealth`.  The Go `break`
statements inside the `switch` cases terminate only the `switch`, not
the `for` loop, so the loop visits every sensor and each faulting sensor
overwrites `device.Status.State`. -/
def sensorStep (acc : Bool × Device) (sensor : Sensor) : Bool × Device :=
  if sensorFaults sensor then
    (false, { acc.2 with status := { acc.2.status with
      state := sensor.name } })
  else
    acc

/-- Body of `systemHealth` once the sensor read succeeded: set health to
`"OK"`, scan all sensors, downgrade to `"CRITICAL"` if any faulted, then
record the POST-code read's status and code while discarding its error
(`post` is the full triple `a.PostCode(ctx)` returns). -/
def systemHealthBody {ε : Type} (sensors : List Sensor)
    (post : String × Int × Option ε) (device : Device) : Device :=
  let device := { device with status := { device.status with
    health := "OK" } }
  let scanned := sensors.foldl sensorStep (true, device)
  let ok := scanned.1
  let device := scanned.2
  let device :=
    if ¬ ok then
      { device with status := { device.status with
        health := "CRITICAL" } }
    else device
  { device with status := { device.status with
    postCodeStatus := post.1
    postCode := post.2.1 } }

/-- `systemHealth`: propagate a failed sensor read, otherwise run the
body; always succeeds after that (the POST-code error is ignored). -/
def systemHealth {ε : Type} (sensorRes : Except ε (List Sensor))
    (post : String × Int × Option ε) (device : Device) :
    Except (InvError ε) Device :=
  match sensorRes with
  | Except.error e => Except.error (InvError.readFailure e)
  | Except.ok sensors => Except.ok (systemHealthBody sensors post device)

/-- `Inventory`: initialize the device, then run `fruAttributes`,
`systemAttributes` and `systemHealth` in order, aborting on the first
error. -/
def Inventory {ε : Type} (vendorFromProductName : String → String)
    (fruRes : Except ε (List FRU)) (fwRes : Except ε FirmwareInfo)
    (compRes : Except ε (List Component))
    (sensorRes : Except ε (List Sensor))
    (post : String × Int × Option ε) : Except (InvError ε) Device :=
  let device : Device := {}
  match fruAttributes fruRes device with
  | Except.error e => Except.error e
  | Except.ok device =>
    match systemAttributes vendorFromProductName fwRes compRes device with
    | Except.error e => Except.error e
    | Except.ok device => systemHealth sensorRes post device

/-! ### Helper definitions used by the proofs -/

/-- Overwrite only `device.Status.State`, as the fault branches of the
sensor loop do. -/
def setState (d : Device) (n : String) : Device :=
  { d with status := { d.status with state := n } }

/-- The name of the last faulting sensor of the list, threaded through an
accumulator exactly as the loop threads `device.Status.State`. -/
def lastFaultAux (acc : Option String) (sensors : List Sensor) :
    Option String :=
  sensors.foldl (fun a s => if sensorFaults s then some s.name else a) acc

/-- Apply an optional state overwrite. -/
def applyLastFault (d : Device) : Option String → Device
  | some n => setState d n
  | none => d

/-- The device `fruAttributesBody` builds from the freshly initialized
device and a single FRU record. -/
def fruDeviceInit (f : FRU) : Device :=
  { model := f.board.productName
    vendor := f.board.manufacturer
    serial := f.board.serialNumber
    mainboard := { model := f.board.productName
                   vendor := f.board.manufacturer
                   serial := f.board.serialNumber }
    enclosures := [{ common := { description := f.chassis.chassisType
                                 model := f.chassis.modelExtra
                                 serial := f.chassis.serialNumber
                                 productName := f.chassis.partNumber } }]
    metadata := [("product.manufacturer", f.product.manufacturer),
                 ("product.name", f.product.productName),
                 ("product.part_number", f.product.partNumber),
                 ("product.version", f.product.productVersion),
                 ("product.serialnumber", f.product.serialNumber)] }

/-! ### Lemmas about the sensor scan -/

theorem setState_setState (d : Device) (m n : String) :
    setState (setState d m) n = setState d n := rfl

theorem lastFaultAux_cons (acc : Option String) (s : Sensor)
    (t : List Sensor) :
    lastFaultAux acc (s :: t) =
      lastFaultAux (if sensorFaults s then some s.name else acc) t := rfl

theorem lastFaultAux_acc (l : List Sensor) : ∀ acc : Option String,
    lastFaultAux acc l =
      match lastFaultAux none l with
      | some n => some n
      | none => acc := by
  induction l with
  | nil => intro acc; rfl
  | cons s t ih =>
    intro acc
    rw [lastFaultAux_cons, lastFaultAux_cons]
    by_cases hf : sensorFaults s = true
    · rw [if_pos hf, if_pos hf, ih (some s.name)]
      cases lastFaultAux none t <;> rfl
    · rw [if_neg hf, if_neg hf, ih acc]

theorem foldl_sensorStep (l : List Sensor) : ∀ (b : Bool) (d : Device),
    List.foldl sensorStep (b, d) l =
      (b && !(l.any sensorFaults), applyLastFault d (lastFaultAux none l)) := by
  induction l with
  | nil =>
    intro b d
    simp [lastFaultAux, applyLastFault]
  | cons s t ih =>
    intro b d
    rw [List.foldl_cons]
    by_cases hf : sensorFaults s = true
    · have hstep : sensorStep (b, d) s = (false, setState d s.name) := by
        simp [sensorStep, hf, setState]
      rw [hstep, ih false (setState d s.name), lastFaultAux_cons, if_pos hf,
        lastFaultAux_acc t (some s.name)]
      simp only [List.any_cons, hf, Bool.true_or, Bool.not_true,
        Bool.and_false, Bool.false_and]
      cases h2 : lastFaultAux none t <;>
        simp [applyLastFault, setState_setState]
    · have hstep : sensorStep (b, d) s = (b, d) := by
        simp [sensorStep, hf]
      rw [hstep, ih b d, lastFaultAux_cons, if_neg hf]
      simp [List.any_cons, Bool.eq_false_iff.mpr hf]

/-- Closed form of the health-evaluator body: health reflects whether any
sensor faulted, state is the LAST faulting sensor's name (or the previous
state when none faulted), and the POST-code status and code are recorded;
nothing else of the device changes. -/
theorem systemHealthBody_eq {ε : Type} (sensors : List Sensor)
    (post : String × Int × Option ε) (device : Device) :
    systemHealthBody sensors post device =
      { device with status :=
        { health := if sensors.any sensorFaults then "CRITICAL" else "OK"
          state := (lastFaultAux none sensors).getD device.status.state
          postCodeStatus := post.1
          postCode := post.2.1 } } := by
  simp only [systemHealthBody]
  rw [foldl_sensorStep]
  by_cases ha : sensors.any sensorFaults = true <;>
    cases hl : lastFaultAux none sensors <;>
      simp [ha, hl, applyLastFault, setState]

theorem sensorFaults_false_of_nominal (s : Sensor)
    (h : if s.name = "CPU_CATERR" ∨ s.name = "CPU_THERMTRIP" ∨
        s.name = "CPU_PROCHOT" then s.sensorState = 0 else s.sensorState = 1) :
    sensorFaults s = false := by
  unfold sensorFaults
  split at h <;> rename_i hc
  · rw [if_pos hc]
    simp [h]
  · rw [if_neg hc]
    simp [h]

theorem lastFaultAux_none_of_no_fault (sens : List Sensor)
    (h : ∀ s ∈ sens, sensorFaults s = false) :
    lastFaultAux none sens = none := by
  induction sens with
  | nil => rfl
  | cons s t ih =>
    rw [lastFaultAux_cons, if_neg (by simp [h s (List.mem_cons_self s t)])]
    exact ih fun x hx => h x (List.mem_cons_of_mem s hx)

theorem any_false_of_no_fault (sens : List Sensor)
    (h : ∀ s ∈ sens, sensorFaults s = false) :
    sens.any sensorFaults = false := by
  rw [List.any_eq_false]
  intro x hx
  simp [h x hx]

/-! ### Lemmas about the component loop and `systemAttributes` -/

theorem processComponent_shape (v : String → String) (fw : FirmwareInfo)
    (d : Device) (c : Component) :
    ∃ cpus mem drv, processComponent v fw d c =
      { d with cpus := cpus, memory := mem, drives := drv } := by
  unfold processComponent
  split_ifs <;> exact ⟨_, _, _, rfl⟩

theorem foldl_processComponent_shape (v : String → String)
    (fw : FirmwareInfo) (comps : List Component) : ∀ d : Device,
    ∃ cpus mem drv, comps.foldl (processComponent v fw) d =
      { d with cpus := cpus, memory := mem, drives := drv } := by
  induction comps with
  | nil => intro d; exact ⟨_, _, _, rfl⟩
  | cons c t ih =>
    intro d
    obtain ⟨c1, m1, d1, h1⟩ := processComponent_shape v fw d c
    obtain ⟨c2, m2, d2, h2⟩ := ih (processComponent v fw d c)
    refine ⟨c2, m2, d2, ?_⟩
    rw [List.foldl_cons, h2, h1]

/-- The CPLD entity `systemAttributes` appends when the CPLD version is
real. -/
def cpldEntity (d : Device) (fw : FirmwareInfo) : CPLD :=
  { common := { vendor := d.vendor
                model := d.model
                firmware := some { installed := fw.cpldVersion } } }

/-- Closed form of the component-mapper body on everything except the
CPU/Memory/Drive collections the component loop appends to. -/
theorem systemAttributesBody_shape (v : String → String)
    (fw : FirmwareInfo) (comps : List Component) (device : Device) :
    ∃ cpus mem drv, systemAttributesBody v fw comps device =
      { device with
        bios := some { common := { vendor := device.vendor
                                   model := device.model
                                   firmware := some { installed := fw.biosVersion } } }
        bmc := some { common := { vendor := device.vendor
                                  model := device.model
                                  firmware := some { installed := fw.bmcVersion } } }
        cplds := device.cplds ++
          (if fw.cpldVersion ≠ "N/A" then [cpldEntity device fw] else [])
        metadata := device.metadata ++ [("node_id", fw.nodeID)]
        cpus := cpus, memory := mem, drives := drv } := by
  simp only [systemAttributesBody]
  by_cases hc : fw.cpldVersion = "N/A"
  · rw [if_neg (by simp [hc]), if_neg (by simp [hc]), List.append_nil]
    exact foldl_processComponent_shape v fw comps _
  · rw [if_pos hc, if_pos hc]
    exact foldl_processComponent_shape v fw comps _

/-! ### Case equations for `Inventory` -/

theorem Inventory_fru_error {ε : Type} (v : String → String) (e : ε)
    (fwRes : Except ε FirmwareInfo) (compRes : Except ε (List Component))
    (sensorRes : Except ε (List Sensor)) (post : String × Int × Option ε) :
    Inventory v (Except.error e) fwRes compRes sensorRes post =
      Except.error (InvError.readFailure e) := rfl

theorem Inventory_fru_bad {ε : Type} (v : String → String)
    (frus : List FRU) (fwRes : Except ε FirmwareInfo)
    (compRes : Except ε (List Component))
    (sensorRes : Except ε (List Sensor)) (post : String × Int × Option ε)
    (h : frus.length ≠ 1) :
    Inventory v (Except.ok frus) fwRes compRes sensorRes post =
      Except.error InvError.noFruInformation := by
  simp only [Inventory, fruAttributes, fruAttributesBody, if_pos h]

theorem Inventory_fw_error {ε : Type} (v : String → String) (f : FRU)
    (e : ε) (compRes : Except ε (List Component))
    (sensorRes : Except ε (List Sensor)) (post : String × Int × Option ε) :
    Inventory v (Except.ok [f]) (Except.error e) compRes sensorRes post =
      Except.error (InvError.readFailure e) := rfl

theorem Inventory_comp_error {ε : Type} (v : String → String) (f : FRU)
    (fw : FirmwareInfo) (e : ε) (sensorRes : Except ε (List Sensor))
    (post : String × Int × Option ε) :
    Inventory v (Except.ok [f]) (Except.ok fw) (Except.error e) sensorRes
        post = Except.error (InvError.readFailure e) := rfl

theorem Inventory_sensor_error {ε : Type} (v : String → String) (f : FRU)
    (fw : FirmwareInfo) (comps : List Component) (e : ε)
    (post : String × Int × Option ε) :
    Inventory v (Except.ok [f]) (Except.ok fw) (Except.ok comps)
        (Except.error e) post = Except.error (InvError.readFailure e) := rfl

theorem Inventory_ok_eq {ε : Type} (v : String → String) (f : FRU)
    (fw : FirmwareInfo) (comps : List Component) (sens : List Sensor)
    (post : String × Int × Option ε) :
    Inventory v (Except.ok [f]) (Except.ok fw) (Except.ok comps)
        (Except.ok sens) post =
      Except.ok (systemHealthBody sens post
        (systemAttributesBody v fw comps (fruDeviceInit f))) := rfl

/-! ### Concrete fixtures for the witness theorems -/

def vW : String → String := fun _ => "ACME"

def fruW : FRU :=
  { board := { productName := "X570D4U"
               manufacturer := "ASRockRack"
               serialNumber := "S123" }
    chassis := { chassisType := "RackMount"
                 modelExtra := "M1"
                 serialNumber := "CH9"
                 partNumber := "PN-CH" }
    product := { manufacturer := "AcmeMfg"
                 productName := "Srv1"
                 partNumber := "PART-7"
                 productVersion := "V2"
                 serialNumber := "PS1" } }

def fwW : FirmwareInfo :=
  { biosVersion := "P1.10"
    bmcVersion := "2.05"
    cpldVersion := "1.2"
    microCodeVersion := "0xA10"
    meVersion := "ME5"
    nodeID := "node7" }

def compW : Component :=
  { deviceType := "Storage device"
    productManufacturerName := "N/A"
    productPartNumber := "ACME-SSD-1"
    productSerialNumber := "SER9" }

def deviceW4 : Device :=
  systemHealthBody [] (("POST", 7, (none : Option Unit)))
    (systemAttributesBody vW fwW [compW] (fruDeviceInit fruW))

def deviceW5 : Device :=
  systemAttributesBody vW fwW [] (fruDeviceInit fruW)

/-! ### The claims -/

/-- C1 (code bug in the source): when more than one sensor faults, the
name recorded in Device.Status.State is the LAST faulting sensor in input
order, not the first: with FAN1 and FAN2 both faulting (state code 0 for
non-indicator sensors is a fault), the recorded state is "FAN2".  The Go
break statements exit only the switch, not the for loop, so every later
faulting sensor overwrites the recorded name. -/
theorem C1_later_fault_overwrites_state :
    (systemHealthBody [{ name := "FAN1", sensorState := 0 },
        { name := "FAN2", sensorState := 0 }]
      (("", 0, none) : String × Int × Option Unit)
      {}).status.state = "FAN2" ∧ "FAN2" ≠ "FAN1" := by
  constructor
  · rfl
  · decide

/-- C2: a sensor named CPU_CATERR, CPU_THERMTRIP or CPU_PROCHOT faults
exactly when its state code is non-zero, every other sensor faults
exactly when its state code is not 1, and the final health is "CRITICAL"
if at least one sensor faulted and "OK" otherwise. -/
theorem C2_two_tier_fault_policy (ε : Type) (sensors : List Sensor)
    (post : String × Int × Option ε) (device : Device) :
    (∀ s : Sensor, sensorFaults s = true ↔
      (if s.name = "CPU_CATERR" ∨ s.name = "CPU_THERMTRIP" ∨
          s.name = "CPU_PROCHOT" then
        s.sensorState ≠ 0 else s.sensorState ≠ 1)) ∧
    systemHealth (Except.ok sensors) post device =
      Except.ok (systemHealthBody sensors post device) ∧
    (systemHealthBody sensors post device).status.health =
      (if sensors.any sensorFaults then "CRITICAL" else "OK") := by
  refine ⟨?_, rfl, ?_⟩
  · intro s
    by_cases hc : s.name = "CPU_CATERR" ∨ s.name = "CPU_THERMTRIP" ∨
      s.name = "CPU_PROCHOT"
    · simp [sensorFaults, hc]
    · simp [sensorFaults, hc]
  · rw [systemHealthBody_eq]

/-- C3: a FRU read result with zero or two-or-more records makes
Inventory fail with the dedicated data-integrity error, which is distinct
from every upstream read failure, and no Device is returned. -/
theorem C3_fru_count_data_integrity (ε : Type) (v : String → String)
    (frus : List FRU) (fwRes : Except ε FirmwareInfo)
    (compRes : Except ε (List Component))
    (sensorRes : Except ε (List Sensor)) (post : String × Int × Option ε)
    (h : frus.length ≠ 1) :
    Inventory v (Except.ok frus) fwRes compRes sensorRes post =
        Except.error InvError.noFruInformation ∧
      (∀ e : ε, (InvError.noFruInformation : InvError ε) ≠
        InvError.readFailure e) ∧
      (∀ d : Device,
        Inventory v (Except.ok frus) fwRes compRes sensorRes post ≠
          Except.ok d) := by
  refine ⟨Inventory_fru_bad v frus fwRes compRes sensorRes post h, ?_, ?_⟩
  · intro e hcontra
    exact InvError.noConfusion hcontra
  · intro d hcontra
    rw [Inventory_fru_bad v frus fwRes compRes sensorRes post h] at hcontra
    exact Except.noConfusion hcontra

theorem C3_fru_count_witness :
    Inventory vW (Except.ok ([] : List FRU)) (Except.ok fwW)
        (Except.ok ([] : List Component)) (Except.ok ([] : List Sensor))
        (("", 0, (none : Option Unit))) =
      Except.error InvError.noFruInformation :=
  (C3_fru_count_data_integrity Unit vW [] (Except.ok fwW) (Except.ok [])
    (Except.ok []) ("", 0, none) (by decide)).1

/-- C4: with exactly one FRU record, Device.Model, Device.Vendor and
Device.Serial come from the FRU board ProductName, Manufacturer and
SerialNumber, and Device.Mainboard carries the same three values. -/
theorem C4_board_identity (ε : Type) (v : String → String) (fru : FRU)
    (fw : FirmwareInfo) (comps : List Component) (sens : List Sensor)
    (post : String × Int × Option ε) (d : Device)
    (h : Inventory v (Except.ok [fru]) (Except.ok fw) (Except.ok comps)
        (Except.ok sens) post = Except.ok d) :
    d.model = fru.board.productName ∧ d.vendor = fru.board.manufacturer ∧
      d.serial = fru.board.serialNumber ∧
      d.mainboard.model = fru.board.productName ∧
      d.mainboard.vendor = fru.board.manufacturer ∧
      d.mainboard.serial = fru.board.serialNumber := by
  rw [Inventory_ok_eq] at h
  have hd : d = systemHealthBody sens post
      (systemAttributesBody v fw comps (fruDeviceInit fru)) :=
    (Except.ok.inj h).symm
  obtain ⟨c1, m1, d1, hs⟩ :=
    systemAttributesBody_shape v fw comps (fruDeviceInit fru)
  rw [hd, systemHealthBody_eq, hs]
  exact ⟨rfl, rfl, rfl, rfl, rfl, rfl⟩

theorem C4_board_identity_witness :
    deviceW4.model = fruW.board.productName ∧
      deviceW4.vendor = fruW.board.manufacturer ∧
      deviceW4.serial = fruW.board.serialNumber ∧
      deviceW4.mainboard.model = fruW.board.productName ∧
      deviceW4.mainboard.vendor = fruW.board.manufacturer ∧
      deviceW4.mainboard.serial = fruW.board.serialNumber :=
  C4_board_identity Unit vW fruW fwW [compW] [] ("POST", 7, none)
    deviceW4 rfl

/-- C5: a CPLD sub-entity is appended iff the firmware CPLD version is
not "N/A"; when appended, Firmware.Installed is the CPLD version and its
vendor and model are copied from the Device. -/
theorem C5_cpld_iff (ε : Type) (v : String → String) (fw : FirmwareInfo)
    (comps : List Component) (device : Device) (d : Device)
    (h : systemAttributes v (Except.ok fw) (Except.ok comps) device =
      (Except.ok d : Except (InvError ε) Device)) :
    d.cplds = device.cplds ++
      (if fw.cpldVersion ≠ "N/A" then
        [{ common := { vendor := device.vendor
                       model := device.model
                       firmware := some { installed := fw.cpldVersion } } }]
      else []) := by
  have hd : d = systemAttributesBody v fw comps device :=
    (Except.ok.inj h).symm
  obtain ⟨c1, m1, d1, hs⟩ := systemAttributesBody_shape v fw comps device
  rw [hd, hs]
  rfl

theorem C5_cpld_witness :
    deviceW5.cplds = (fruDeviceInit fruW).cplds ++
      (if fwW.cpldVersion ≠ "N/A" then
        [{ common := { vendor := (fruDeviceInit fruW).vendor
                       model := (fruDeviceInit fruW).model
                       firmware := some { installed := fwW.cpldVersion } } }]
      else []) :=
  C5_cpld_iff Unit vW fwW [] (fruDeviceInit fruW) deviceW5 rfl

/-- C6: a Storage-device component yields exactly one appended Drive whose
vendor is the part-number lookup result precisely when the manufacturer
field is "N/A" and the part-number field is not "N/A", and the empty
string in every other case; serial and product name come from the
component. -/
theorem C6_storage_vendor (v : String → String) (fw : FirmwareInfo)
    (device : Device) (c : Component)
    (h : c.deviceType = "Storage device") :
    processComponent v fw device c = { device with
      drives := device.drives ++ [{ common := {
        vendor := if c.productManufacturerName = "N/A" ∧
            c.productPartNumber ≠ "N/A" then
          v c.productPartNumber else ""
        serial := c.productSerialNumber
        productName := c.productPartNumber } }] } := by
  unfold processComponent
  rw [h]
  simp

theorem C6_storage_vendor_witness :
    processComponent vW fwW ({} : Device) compW = { ({} : Device) with
      drives := ({} : Device).drives ++ [{ common := {
        vendor := if compW.productManufacturerName = "N/A" ∧
            compW.productPartNumber ≠ "N/A" then
          vW compW.productPartNumber else ""
        serial := compW.productSerialNumber
        productName := compW.productPartNumber } }] } :=
  C6_storage_vendor vW fwW {} compW rfl

/-- C7: the whole Inventory result is independent of the POST-code read
outcome except for the recorded postCodeStatus and postCode fields: a
POST-code failure never causes an Inventory error, the returned status
and code are recorded into Device.Status whenever a Device is returned,
and the health verdict is untouched by the read. -/
theorem C7_post_code_isolated (ε : Type) (v : String → String)
    (fruRes : Except ε (List FRU)) (fwRes : Except ε FirmwareInfo)
    (compRes : Except ε (List Component))
    (sensorRes : Except ε (List Sensor)) (s s' : String) (c c' : Int)
    (oe oe' : Option ε) :
    Inventory v fruRes fwRes compRes sensorRes (s, c, oe) =
        Except.map (fun d => { d with status := { d.status with
            postCodeStatus := s, postCode := c } })
          (Inventory v fruRes fwRes compRes sensorRes (s', c', oe')) ∧
      (∀ d : Device,
        Inventory v fruRes fwRes compRes sensorRes (s, c, oe) =
          Except.ok d →
        d.status.postCodeStatus = s ∧ d.status.postCode = c) := by
  have key : ∀ (t t' : String) (k k' : Int) (p p' : Option ε),
      Inventory v fruRes fwRes compRes sensorRes (t, k, p) =
        Except.map (fun d => { d with status := { d.status with
            postCodeStatus := t, postCode := k } })
          (Inventory v fruRes fwRes compRes sensorRes (t', k', p')) := by
    intro t t' k k' p p'
    cases fruRes with
    | error e => rfl
    | ok frus =>
      by_cases hl : frus.length = 1
      · obtain ⟨f, rfl⟩ := List.length_eq_one.mp hl
        cases fwRes with
        | error e => rfl
        | ok fw =>
          cases compRes with
          | error e => rfl
          | ok comps =>
            cases sensorRes with
            | error e => rfl
            | ok sens =>
              rw [Inventory_ok_eq, Inventory_ok_eq, systemHealthBody_eq,
                systemHealthBody_eq]
              rfl
      · rw [Inventory_fru_bad v frus fwRes compRes sensorRes (t, k, p) hl,
          Inventory_fru_bad v frus fwRes compRes sensorRes (t', k', p') hl]
        rfl
  refine ⟨key s s' c c' oe oe', ?_⟩
  intro d h
  have h2 := key s s c c oe oe
  rw [h] at h2
  have h3 : d = { d with status := { d.status with
      postCodeStatus := s, postCode := c } } := Except.ok.inj h2
  exact ⟨congrArg (fun x => x.status.postCodeStatus) h3,
    congrArg (fun x => x.status.postCode) h3⟩

/-- C8: Inventory returns a Device exactly when every upstream read
succeeded and the FRU list has exactly one record; in every other case it
returns an error and no Device. -/
theorem C8_complete_or_error (ε : Type) (v : String → String)
    (fruRes : Except ε (List FRU)) (fwRes : Except ε FirmwareInfo)
    (compRes : Except ε (List Component))
    (sensorRes : Except ε (List Sensor)) (post : String × Int × Option ε) :
    (∃ d, Inventory v fruRes fwRes compRes sensorRes post =
        Except.ok d) ↔
      ((∃ frus, fruRes = Except.ok frus ∧ frus.length = 1) ∧
        (∃ fw, fwRes = Except.ok fw) ∧
        (∃ comps, compRes = Except.ok comps) ∧
        (∃ sens, sensorRes = Except.ok sens)) := by
  cases fruRes with
  | error e => simp [Inventory_fru_error]
  | ok frus =>
    by_cases hl : frus.length = 1
    · obtain ⟨f, rfl⟩ := List.length_eq_one.mp hl
      cases fwRes with
      | error e => simp [Inventory_fw_error]
      | ok fw =>
        cases compRes with
        | error e => simp [Inventory_comp_error]
        | ok comps =>
          cases sensorRes with
          | error e => simp [Inventory_sensor_error]
          | ok sens => simp [Inventory_ok_eq]
    · simp [Inventory_fru_bad v frus fwRes compRes sensorRes post hl, hl]

/-- C9: in every successful snapshot the metadata write log is exactly the
five product keys from the FRU product sub-record followed by node_id from
the firmware record, each key written exactly once (the keys are pairwise
distinct, so nothing is overwritten). -/
theorem C9_metadata_written_once (ε : Type) (v : String → String)
    (fru : FRU) (fw : FirmwareInfo) (comps : List Component)
    (sens : List Sensor) (post : String × Int × Option ε) (d : Device)
    (h : Inventory v (Except.ok [fru]) (Except.ok fw) (Except.ok comps)
        (Except.ok sens) post = Except.ok d) :
    d.metadata = [("product.manufacturer", fru.product.manufacturer),
        ("product.name", fru.product.productName),
        ("product.part_number", fru.product.partNumber),
        ("product.version", fru.product.productVersion),
        ("product.serialnumber", fru.product.serialNumber),
        ("node_id", fw.nodeID)] ∧
      (d.metadata.map Prod.fst).Nodup := by
  rw [Inventory_ok_eq] at h
  have hd : d = systemHealthBody sens post
      (systemAttributesBody v fw comps (fruDeviceInit fru)) :=
    (Except.ok.inj h).symm
  obtain ⟨c1, m1, d1, hs⟩ :=
    systemAttributesBody_shape v fw comps (fruDeviceInit fru)
  have h1 : d.metadata =
      [("product.manufacturer", fru.product.manufacturer),
       ("product.name", fru.product.productName),
       ("product.part_number", fru.product.partNumber),
       ("product.version", fru.product.productVersion),
       ("product.serialnumber", fru.product.serialNumber),
       ("node_id", fw.nodeID)] := by
    rw [hd, systemHealthBody_eq, hs]
    rfl
  refine ⟨h1, ?_⟩
  rw [h1]
  have h2 : List.map Prod.fst
      [("product.manufacturer", fru.product.manufacturer),
       ("product.name", fru.product.productName),
       ("product.part_number", fru.product.partNumber),
       ("product.version", fru.product.productVersion),
       ("product.serialnumber", fru.product.serialNumber),
       ("node_id", fw.nodeID)] =
      ["product.manufacturer", "product.name", "product.part_number",
       "product.version", "product.serialnumber", "node_id"] := rfl
  rw [h2]
  decide

theorem C9_metadata_witness :
    deviceW4.metadata =
        [("product.manufacturer", fruW.product.manufacturer),
         ("product.name", fruW.product.productName),
         ("product.part_number", fruW.product.partNumber),
         ("product.version", fruW.product.productVersion),
         ("product.serialnumber", fruW.product.serialNumber),
         ("node_id", fwW.nodeID)] ∧
      (deviceW4.metadata.map Prod.fst).Nodup :=
  C9_metadata_written_once Unit vW fruW fwW [compW] [] ("POST", 7, none)
    deviceW4 rfl

/-- C10: when no sensor faults (every fault-indicator sensor has state
code 0 and every other sensor has state code 1, in particular for the
empty list), the health-evaluator body leaves Device.Status.State
untouched and sets health to "OK"; only the POST-code fields change
besides health. -/
theorem C10_no_fault_frame (ε : Type) (sens : List Sensor)
    (post : String × Int × Option ε) (device : Device)
    (h : ∀ s ∈ sens,
      if s.name = "CPU_CATERR" ∨ s.name = "CPU_THERMTRIP" ∨
          s.name = "CPU_PROCHOT" then
        s.sensorState = 0 else s.sensorState = 1) :
    systemHealthBody sens post device =
      { device with status := { device.status with
          health := "OK"
          postCodeStatus := post.1
          postCode := post.2.1 } } ∧
      (systemHealthBody sens post device).status.state =
        device.status.state := by
  have hf : ∀ s ∈ sens, sensorFaults s = false := fun s hs =>
    sensorFaults_false_of_nominal s (h s hs)
  have h1 := systemHealthBody_eq sens post device
  rw [any_false_of_no_fault sens hf,
    lastFaultAux_none_of_no_fault sens hf] at h1
  simp only [Bool.false_eq_true, if_false, Option.getD_none] at h1
  refine ⟨?_, ?_⟩ <;> rw [h1]

theorem C10_no_fault_witness :
    systemHealthBody [] (("", 0, (none : Option Unit))) ({} : Device) =
      { ({} : Device) with status := { ({} : Device).status with
          health := "OK"
          postCodeStatus := ""
          postCode := 0 } } ∧
      (systemHealthBody [] (("", 0, (none : Option Unit)))
        ({} : Device)).status.state = ({} : Device).status.state :=
  C10_no_fault_frame Unit [] ("", 0, none) {}
    (fun s hs => (List.not_mem_nil s hs).elim)

end ASRockRack
